import Mathlib

/-!
# BookStore listing pipeline: a shallow embedding

Embedding of the book-listing pipeline (`home` in `app.py`), the delete-book
route (`delete_book` in `app.py`) and the data model (`data_models.py`) of the
BookStore-Flask-SQLalchemy repository, together with theorems checking the
natural-language specification against it.

Python strings become `String`, rows become structures, the SQLAlchemy store
becomes an explicit `Store` value, and the Google Books HTTP call becomes a
function `String → LookupResult` passed in as the cover-lookup client.
Code that can raise an exception is embedded with `Except Unit`.
-/

/-! ## Data model (`data_models.py`) -/

/-- An `Author` row: surrogate id, required name, optional dates. -/
structure Author where
  id : Nat
  name : String
  birth_date : Option String := none
  date_of_death : Option String := none
deriving Repr, DecidableEq

/-- A `Book` row. The `author` relationship is embedded directly, mirroring
`book.author` access in the pipeline; `author_id` is `author.id`. -/
structure Book where
  id : Nat
  isbn : String
  title : String
  publication_year : Int
  author : Author
deriving Repr, DecidableEq

/-- The Record Store: the two tables held by SQLAlchemy. -/
structure Store where
  books : List Book
  authors : List Author
deriving Repr, DecidableEq

/-! ## Python string helpers

`needle in hay` on Python strings is substring containment; `str.lower()`
lower-cases the characters. We work on character lists. -/

/-- Character-list version of `str.lower()`. -/
def lowerStr (s : String) : List Char :=
  s.toList.map Char.toLower

/-- Does `hay` start with `needle`? -/
def startsWithChars : List Char → List Char → Bool
  | [], _ => true
  | _ :: _, [] => false
  | a :: as, b :: bs => a == b && startsWithChars as bs

/-- Python's `needle in hay` substring test on strings. -/
def containsChars (needle : List Char) : List Char → Bool
  | [] => startsWithChars needle []
  | c :: rest => startsWithChars needle (c :: rest) || containsChars needle rest

/-! ## Filter step (`app.py` lines 102–105) -/

/-- The filter predicate of the list comprehension:
`search_query.lower() in book.title.lower() or
 search_query.lower() in book.author.name.lower()`. -/
def matchesQuery (s : String) (b : Book) : Bool :=
  containsChars (lowerStr s) (lowerStr b.title) ||
    containsChars (lowerStr s) (lowerStr b.author.name)

/-- `if search_query:` guards the list comprehension; `None` and the empty
string are falsy, so only a present, non-empty query filters. -/
def filterBooks (search_query : Option String) (books : List Book) : List Book :=
  match search_query with
  | none => books
  | some s => if s = "" then books else books.filter (matchesQuery s)

/-! ## Sort step (`app.py` lines 107–111)

Python's `list.sort` is a stable sort; `key=lambda x: x.title` compares the
keys with `<` on strings (lexicographic by code point), which is `≤`-sorting
under `String` order. We embed it with the stable `List.mergeSort`. -/

/-- Comparison used by `books.sort(key=lambda x: x.title)`. -/
def titleLe (a b : Book) : Bool := decide (a.title ≤ b.title)

/-- Comparison used by `books.sort(key=lambda x: x.author.name)`. -/
def authorLe (a b : Book) : Bool := decide (a.author.name ≤ b.author.name)

/-- The `if sort_by == 'title' / elif sort_by == 'author'` chain; any other
directive (including absence) leaves the list as is. -/
def sortBooks (sort_by : Option String) (books : List Book) : List Book :=
  if sort_by = some "title" then books.mergeSort titleLe
  else if sort_by = some "author" then books.mergeSort authorLe
  else books

/-- The sequence of books surviving filter and sort, in output order:
the sort is applied to the post-filter list. -/
def survivingBooks (books : List Book) (search_query sort_by : Option String) :
    List Book :=
  sortBooks sort_by (filterBooks search_query books)

/-! ## Cover Lookup Client (`app.py` lines 122–132)

`requests.get(...)` either raises (network/transport error) or yields a
response with a status code and a body; `response.json()` either raises
(malformed body) or yields parsed data.  Only the JSON shape the code
touches is modelled: the optional `items` list, each item's optional
`volumeInfo`, its optional `imageLinks` dict and the optional `thumbnail`
entry, whose stored value may be a string or JSON `null` (Python `None`). -/

/-- A Python value reachable as the `thumbnail` entry: a string or `None`. -/
inductive PyVal where
  | str (s : String)
  | none
deriving Repr, DecidableEq

/-- The `imageLinks` dict, holding an optional `thumbnail` entry.
`thumbnail := Option.none` means the key is absent; `some v` means the key is
present with stored value `v` (possibly `PyVal.none`). -/
structure ImageLinks where
  thumbnail : Option PyVal
deriving Repr, DecidableEq

/-- The `volumeInfo` dict: only the `imageLinks` key is accessed. -/
structure VolumeInfo where
  imageLinks : Option ImageLinks
deriving Repr, DecidableEq

/-- One element of the `items` array; `data['items'][0]['volumeInfo']` raises
`KeyError` when `volumeInfo` is absent. -/
structure Item where
  volumeInfo : Option VolumeInfo
deriving Repr, DecidableEq

/-- The response body: `malformed` when `response.json()` raises, otherwise
the parsed data with its optional `items` list (`Option.none`: no `items`
key). -/
inductive Body where
  | malformed
  | parsed (items : Option (List Item))
deriving Repr, DecidableEq

/-- Outcome of `requests.get` for one ISBN: a raised transport exception, or
a response carrying a status code and a body. -/
inductive LookupResult where
  | exn
  | resp (status : Nat) (body : Body)
deriving Repr, DecidableEq

/-- `volume_info.get('imageLinks', {}).get('thumbnail', '')`: absent keys
default to `''`, but a present `thumbnail` key yields its stored value
unchanged. -/
def getCoverLink (vi : VolumeInfo) : PyVal :=
  match vi.imageLinks with
  | Option.none => PyVal.str ""
  | some d =>
    match d.thumbnail with
    | Option.none => PyVal.str ""
    | some v => v

/-- The per-book enrichment (`app.py` lines 122–132): issue the lookup, and
on a 200 response parse the body and extract the cover link; a non-200
status or an empty/absent `items` list yields `''`.  `Except.error ()` marks
an uncaught Python exception (raised transport error, `response.json()`
raising on a malformed body, or `KeyError` on a missing `volumeInfo`). -/
def fetchCover (client : String → LookupResult) (isbn : String) :
    Except Unit PyVal :=
  match client isbn with
  | LookupResult.exn => Except.error ()
  | LookupResult.resp status body =>
    if status = 200 then
      match body with
      | Body.malformed => Except.error ()
      | Body.parsed items =>
        match items with
        | some (item :: _) =>
          match item.volumeInfo with
          | Option.none => Except.error ()
          | some vi => Except.ok (getCoverLink vi)
        | some [] => Except.ok (PyVal.str "")
        | Option.none => Except.ok (PyVal.str "")
    else Except.ok (PyVal.str "")

/-- Does the enrichment of book `b` complete without raising? -/
def coverOk (client : String → LookupResult) (b : Book) : Bool :=
  match fetchCover client b.isbn with
  | Except.ok _ => true
  | Except.error _ => false

/-! ## View-model assembly (`app.py` lines 113–134) -/

/-- One `book_info` dict as the template receives it.  The source stores the
whole `Author` object under the `author_name` key (it is not flattened to a
name), and `cover_image` holds whatever the enrichment produced. -/
structure BookInfo where
  title : String
  isbn : String
  publication_year : Int
  author_name : Author
  cover_image : PyVal
deriving Repr, DecidableEq

/-- The `for book in books:` loop: build the entry, enrich it, append.  An
exception raised by any enrichment aborts the whole request (there is no
`try`/`except` in the handler), so the result is `Except.error ()`. -/
def buildBooksData (client : String → LookupResult) :
    List Book → Except Unit (List BookInfo)
  | [] => Except.ok []
  | b :: rest =>
    match fetchCover client b.isbn with
    | Except.error e => Except.error e
    | Except.ok cover =>
      match buildBooksData client rest with
      | Except.error e => Except.error e
      | Except.ok tail =>
        Except.ok ({ title := b.title, isbn := b.isbn,
                     publication_year := b.publication_year,
                     author_name := b.author, cover_image := cover } :: tail)

/-- The whole listing pipeline of the `home` handler: fetch all books,
filter, sort, enrich, assemble. -/
def homePipeline (client : String → LookupResult) (books : List Book)
    (search_query sort_by : Option String) : Except Unit (List BookInfo) :=
  buildBooksData client (survivingBooks books search_query sort_by)

/-- The entry the loop produces for book `b` when its enrichment does not
raise (used to state what a completed run returns). -/
def mkBookInfo (client : String → LookupResult) (b : Book) : BookInfo :=
  { title := b.title, isbn := b.isbn, publication_year := b.publication_year,
    author_name := b.author,
    cover_image :=
      match fetchCover client b.isbn with
      | Except.ok v => v
      | Except.error _ => PyVal.str "" }

/-! ## Side-effect trace of the `home` handler (`app.py` lines 80–137)

To state the frame property, the externally visible operations of a request
are recorded as a trace: the Record Store operations the repository performs
(`Book.query.all()`, `db.session.add`, `db.session.delete`) and the outbound
cover lookups. -/

/-- An externally visible operation of a request handler. -/
inductive Effect where
  | queryAllBooks
  | insertAuthor (a : Author)
  | insertBook (b : Book)
  | deleteBookRow (id : Nat)
  | lookup (isbn : String)
deriving Repr, DecidableEq

/-- How one operation changes the Record Store: reads and lookups leave it
unchanged; `add_author`/`add_book` append a row; `delete_book` removes the
row with the given id. -/
def applyEffect (s : Store) : Effect → Store
  | Effect.queryAllBooks => s
  | Effect.insertAuthor a => { s with authors := s.authors ++ [a] }
  | Effect.insertBook b => { s with books := s.books ++ [b] }
  | Effect.deleteBookRow i =>
      { s with books := s.books.filter (fun b => ¬ b.id = i) }
  | Effect.lookup _ => s

/-- Replay a trace of operations against the store. -/
def applyEffects (s : Store) (l : List Effect) : Store :=
  l.foldl applyEffect s

/-- The lookup calls the enrichment loop issues, in order: one `requests.get`
per book processed; a raised exception aborts the loop, so no call is issued
for the books after it. -/
def lookupEffects (client : String → LookupResult) : List Book → List Effect
  | [] => []
  | b :: rest =>
    Effect.lookup b.isbn ::
      (match fetchCover client b.isbn with
       | Except.ok _ => lookupEffects client rest
       | Except.error _ => [])

/-- The full trace of a `home` request: one `Book.query.all()` read, then the
lookups issued by the enrichment loop over the surviving books. -/
def homeEffects (client : String → LookupResult) (books : List Book)
    (search_query sort_by : Option String) : List Effect :=
  Effect.queryAllBooks ::
    lookupEffects client (survivingBooks books search_query sort_by)

/-! ## The delete-book route (`app.py` lines 140–163, `data_models.py` 108–118) -/

/-- HTTP methods relevant to the delete route. -/
inductive Method where
  | GET
  | HEAD
  | POST
deriving Repr, DecidableEq

/-- A response of the delete route. -/
inductive DeleteResponse where
  | methodNotAllowed
  | render (template : String) (b : Book)
  | redirectTo (location : String) (code : Nat)
deriving Repr, DecidableEq

/-- `flask.redirect(location, code=302, Response=None)`: a call passing any
keyword argument outside this signature (such as `message=...`) raises
`TypeError` before any response is built; `Except.error ()` marks that
raised exception. -/
def flaskRedirect (location : String) (code : Nat) (extraKwargs : List String) :
    Except Unit DeleteResponse :=
  if extraKwargs = [] then Except.ok (DeleteResponse.redirectTo location code)
  else Except.error ()

/-- `Book.delete_book` (`data_models.py` lines 108–118): remove the row and
commit. -/
def Book.delete_book (store : Store) (b : Book) : Store :=
  { store with books := store.books.filter (fun x => ¬ x.id = b.id) }

/-- The body of the `delete_book` view (`app.py` lines 141–163), as run once
Flask has dispatched the request to it: look up the book by primary key;
when absent, call `redirect('/', code=303, message=...)` (which raises); on
a POST, delete the row and call `redirect('/', code=200, message=...)`
(which raises after the commit); otherwise render the confirmation page. -/
def delete_book_view (store : Store) (book_id : Nat) (method : Method) :
    Store × Except Unit DeleteResponse :=
  match store.books.find? (fun b => b.id = book_id) with
  | Option.none => (store, flaskRedirect "/" 303 ["message"])
  | some book =>
    if method = Method.POST then
      (Book.delete_book store book, flaskRedirect "/" 200 ["message"])
    else
      (store, Except.ok (DeleteResponse.render "delete_book.html" book))

/-- Route dispatch for `@app.route('/book/<int:book_id>/delete',
methods=['GET'])`: the rule accepts GET (and the automatic HEAD); a POST is
rejected with 405 Method Not Allowed before the view function runs. -/
def delete_book_route (store : Store) (book_id : Nat) (method : Method) :
    Store × Except Unit DeleteResponse :=
  if method = Method.POST then (store, Except.ok DeleteResponse.methodNotAllowed)
  else delete_book_view store book_id method

/-! ## Concrete fixtures for witnesses and counterexamples -/

/-- Concrete author fixture. -/
def aAusten : Author := { id := 1, name := "Austen" }

/-- Concrete author fixture. -/
def aHerbert : Author := { id := 2, name := "Herbert" }

/-- Concrete book fixture. -/
def bEmma : Book :=
  { id := 1, isbn := "111", title := "Emma", publication_year := 1815,
    author := aAusten }

/-- Concrete book fixture. -/
def bDune : Book :=
  { id := 2, isbn := "222", title := "Dune", publication_year := 1965,
    author := aHerbert }

/-- A client whose transport always raises (timeout / connection error). -/
def exnClient : String → LookupResult := fun _ => LookupResult.exn

/-- A client that always answers 404 with a parseable body. -/
def notFoundClient : String → LookupResult := fun _ =>
  LookupResult.resp 404 (Body.parsed Option.none)

/-- A client that always answers 200 with a body that fails to parse. -/
def malformedClient : String → LookupResult := fun _ =>
  LookupResult.resp 200 Body.malformed

/-- A client that answers 200 with one item whose `thumbnail` key is present
but holds JSON `null`. -/
def nullThumbClient : String → LookupResult := fun _ =>
  LookupResult.resp 200 (Body.parsed (some
    [{ volumeInfo := some { imageLinks := some { thumbnail := some PyVal.none } } }]))

/-- A client that answers 200 with one item carrying a thumbnail URL. -/
def urlClient : String → LookupResult := fun _ =>
  LookupResult.resp 200 (Body.parsed (some
    [{ volumeInfo := some { imageLinks := some { thumbnail := some (PyVal.str "http://x/t.jpg") } } }]))

/-! ## Helper lemmas -/

/-- `startsWithChars` decides prefix extension. -/
theorem startsWithChars_iff (n h : List Char) :
    startsWithChars n h = true ↔ ∃ t, h = n ++ t := by
  induction n generalizing h with
  | nil => simp [startsWithChars]
  | cons a as ih =>
    cases h with
    | nil =>
      simp [startsWithChars]
    | cons b bs =>
      simp only [startsWithChars, Bool.and_eq_true, beq_iff_eq, ih]
      constructor
      · rintro ⟨rfl, t, rfl⟩
        exact ⟨t, rfl⟩
      · rintro ⟨t, ht⟩
        injection ht with h1 h2
        exact ⟨h1.symm, t, h2⟩

/-- `containsChars` decides Python's substring containment `needle in hay`. -/
theorem containsChars_iff (n h : List Char) :
    containsChars n h = true ↔ ∃ p t, h = p ++ n ++ t := by
  induction h with
  | nil =>
    simp only [containsChars, startsWithChars_iff]
    constructor
    · rintro ⟨t, ht⟩
      exact ⟨[], t, ht⟩
    · rintro ⟨p, t, ht⟩
      have h0 := ht.symm
      rw [List.append_assoc] at h0
      rcases List.append_eq_nil.mp h0 with ⟨rfl, h2⟩
      exact ⟨t, h2.symm⟩
  | cons c rest ih =>
    simp only [containsChars, Bool.or_eq_true, startsWithChars_iff, ih]
    constructor
    · rintro (⟨t, ht⟩ | ⟨p, t, ht⟩)
      · exact ⟨[], t, by simpa using ht⟩
      · exact ⟨c :: p, t, by simp [ht]⟩
    · rintro ⟨p, t, ht⟩
      cases p with
      | nil => exact Or.inl ⟨t, by simpa using ht⟩
      | cons x xs =>
        injection ht with h1 h2
        exact Or.inr ⟨xs, t, h2⟩

/-- When every surviving book's lookup completes, the loop returns one entry
per book, in order. -/
theorem buildBooksData_eq_ok (client : String → LookupResult) (l : List Book)
    (H : ∀ b ∈ l, coverOk client b = true) :
    buildBooksData client l = Except.ok (l.map (mkBookInfo client)) := by
  induction l with
  | nil => rfl
  | cons b rest ih =>
    have hb := H b (by simp)
    have hrest : ∀ x ∈ rest, coverOk client x = true := fun x hx =>
      H x (by simp [hx])
    cases hfc : fetchCover client b.isbn with
    | error e => simp [coverOk, hfc] at hb
    | ok v =>
      simp only [buildBooksData, hfc, ih hrest, List.map]
      simp [mkBookInfo, hfc]

/-- Conversely, any completed run returns exactly one entry per surviving
book, in order. -/
theorem buildBooksData_ok_elim (client : String → LookupResult) (l : List Book)
    (es : List BookInfo) (h : buildBooksData client l = Except.ok es) :
    es = l.map (mkBookInfo client) := by
  induction l generalizing es with
  | nil =>
    simp only [buildBooksData] at h
    cases h
    rfl
  | cons b rest ih =>
    simp only [buildBooksData] at h
    cases hfc : fetchCover client b.isbn with
    | error e => rw [hfc] at h; cases h
    | ok v =>
      rw [hfc] at h
      cases hr : buildBooksData client rest with
      | error e => rw [hr] at h; cases h
      | ok tail =>
        rw [hr] at h
        cases h
        simp [List.map, ih tail hr, mkBookInfo, hfc]

/-- `titleLe` is transitive. -/
theorem titleLe_trans : ∀ a b c : Book, titleLe a b → titleLe b c → titleLe a c := by
  intro a b c hab hbc
  simp only [titleLe, decide_eq_true_eq] at hab hbc ⊢
  exact le_trans hab hbc

/-- `titleLe` is total. -/
theorem titleLe_total : ∀ a b : Book, titleLe a b || titleLe b a := by
  intro a b
  simp only [titleLe, Bool.or_eq_true, decide_eq_true_eq]
  exact le_total a.title b.title

/-- `authorLe` is transitive. -/
theorem authorLe_trans : ∀ a b c : Book, authorLe a b → authorLe b c → authorLe a c := by
  intro a b c hab hbc
  simp only [authorLe, decide_eq_true_eq] at hab hbc ⊢
  exact le_trans hab hbc

/-- `authorLe` is total. -/
theorem authorLe_total : ∀ a b : Book, authorLe a b || authorLe b a := by
  intro a b
  simp only [authorLe, Bool.or_eq_true, decide_eq_true_eq]
  exact le_total a.author.name b.author.name

/-- Stability of the embedded sort, phrased per key value: the books whose
key equals any fixed value keep exactly their original relative order. -/
theorem mergeSort_filter_key (key : Book → String) (le : Book → Book → Bool)
    (hle : ∀ a b, le a b = decide (key a ≤ key b)) (B : List Book) (t : String) :
    (B.mergeSort le).filter (fun b => decide (key b = t))
      = B.filter (fun b => decide (key b = t)) := by
  have trans : ∀ a b c : Book, le a b → le b c → le a c := by
    intro a b c hab hbc
    rw [hle] at hab hbc ⊢
    simp only [decide_eq_true_eq] at hab hbc ⊢
    exact le_trans hab hbc
  have total : ∀ a b : Book, le a b || le b a := by
    intro a b
    rw [hle, hle]
    simp only [Bool.or_eq_true, decide_eq_true_eq]
    exact le_total (key a) (key b)
  have hpair : (B.filter (fun b => decide (key b = t))).Pairwise
      (fun a b => le a b) := by
    apply List.pairwise_of_forall_mem_list
    intro x hx y hy
    have hxt : key x = t := by
      have := (List.mem_filter.mp hx).2
      simpa using this
    have hyt : key y = t := by
      have := (List.mem_filter.mp hy).2
      simpa using this
    rw [hle]
    simp [hxt, hyt]
  have h2 : List.Sublist (B.filter (fun b => decide (key b = t)))
      (B.mergeSort le) :=
    List.sublist_mergeSort trans total hpair (List.filter_sublist B)
  have h3 : List.Sublist (B.filter (fun b => decide (key b = t)))
      ((B.mergeSort le).filter (fun b => decide (key b = t))) := by
    have := List.Sublist.filter (fun b => decide (key b = t)) h2
    simpa [List.filter_filter] using this
  have h4 : ((B.mergeSort le).filter (fun b => decide (key b = t))).length
      = (B.filter (fun b => decide (key b = t))).length :=
    ((List.mergeSort_perm B le).filter (fun b => decide (key b = t))).length_eq
  exact (h3.eq_of_length h4.symm).symm

/-! ## Claim theorems: filter and sort -/

/-- C2: for every book set `B` and every present non-empty search string `s`,
the filter step retains exactly the books whose lower-cased title contains
lower-cased `s` as a substring or whose linked author's lower-cased name
does (in particular it is a sublist of `B`, keeping order and multiplicity);
with no search string present the filter is the identity. -/
theorem filter_retains_exact_matches (B : List Book) (s : String) (hs : s ≠ "") :
    (List.Sublist (filterBooks (some s) B) B
      ∧ ∀ b : Book, b ∈ filterBooks (some s) B ↔ b ∈ B ∧
          ((∃ p t, lowerStr b.title = p ++ lowerStr s ++ t) ∨
           (∃ p t, lowerStr b.author.name = p ++ lowerStr s ++ t)))
    ∧ ∀ B2 : List Book, filterBooks none B2 = B2 := by
  refine ⟨⟨?_, ?_⟩, ?_⟩
  · simp only [filterBooks, if_neg hs]
    exact List.filter_sublist B
  · intro b
    simp only [filterBooks, if_neg hs, List.mem_filter, matchesQuery,
      Bool.or_eq_true, containsChars_iff]
  · intro B2
    rfl

/-- C2 witness at a concrete book set and query. -/
theorem filter_retains_exact_matches_witness :
    List.Sublist (filterBooks (some "mm") [bEmma, bDune]) [bEmma, bDune] :=
  (filter_retains_exact_matches [bEmma, bDune] "mm" (by decide)).1.1

/-- C6: a present but empty search string is falsy in `if search_query:`,
so the filter step returns every book unfiltered. -/
theorem empty_search_query_unfiltered (B : List Book) :
    filterBooks (some "") B = B := by
  simp [filterBooks]

/-- C3: sorting with directive `title` permutes the book set into an order
that is non-decreasing by title and stable (the books of each fixed title
keep their original relative order); likewise for `author` by the linked
author's name; any other directive, including absence, leaves the order
exactly as received; and the pipeline applies the sort to the post-filter
sequence. -/
theorem sort_step_spec (B : List Book) (d : Option String) :
    ((sortBooks (some "title") B).Perm B
      ∧ (sortBooks (some "title") B).Pairwise (fun a b => a.title ≤ b.title)
      ∧ ∀ t : String,
          (sortBooks (some "title") B).filter (fun b => decide (b.title = t))
            = B.filter (fun b => decide (b.title = t)))
    ∧ ((sortBooks (some "author") B).Perm B
      ∧ (sortBooks (some "author") B).Pairwise
          (fun a b => a.author.name ≤ b.author.name)
      ∧ ∀ n : String,
          (sortBooks (some "author") B).filter
              (fun b => decide (b.author.name = n))
            = B.filter (fun b => decide (b.author.name = n)))
    ∧ (d ≠ some "title" → d ≠ some "author" → sortBooks d B = B)
    ∧ ∀ sq : Option String,
        survivingBooks B sq d = sortBooks d (filterBooks sq B) := by
  have htitle : sortBooks (some "title") B = B.mergeSort titleLe := by
    simp [sortBooks]
  have hauthor : sortBooks (some "author") B = B.mergeSort authorLe := by
    simp [sortBooks]
  refine ⟨⟨?_, ?_, ?_⟩, ⟨?_, ?_, ?_⟩, ?_, ?_⟩
  · rw [htitle]
    exact List.mergeSort_perm B titleLe
  · rw [htitle]
    exact (List.sorted_mergeSort titleLe_trans titleLe_total B).imp
      (fun h => by simpa [titleLe] using h)
  · intro t
    rw [htitle]
    exact mergeSort_filter_key (fun b => b.title) titleLe (fun a b => rfl) B t
  · rw [hauthor]
    exact List.mergeSort_perm B authorLe
  · rw [hauthor]
    exact (List.sorted_mergeSort authorLe_trans authorLe_total B).imp
      (fun h => by simpa [authorLe] using h)
  · intro n
    rw [hauthor]
    exact mergeSort_filter_key (fun b => b.author.name) authorLe
      (fun a b => rfl) B n
  · intro h1 h2
    simp [sortBooks, h1, h2]
  · intro sq
    rfl

/-- C3 witness: an unrecognized directive at a concrete book set is a no-op. -/
theorem sort_step_spec_witness :
    sortBooks (some "isbn") [bEmma, bDune] = [bEmma, bDune] :=
  (sort_step_spec [bEmma, bDune] (some "isbn")).2.2.1 (by decide) (by decide)

/-! ## Claim theorems: enrichment -/

/-- C1 counterexample: a raised transport error is not caught anywhere in the
handler, so with one surviving book and a client whose call raises, the whole
pipeline aborts with an exception instead of emitting the book with an empty
cover image. -/
theorem lookup_exception_aborts_pipeline :
    homePipeline exnClient [bEmma] none none = Except.error ()
      ∧ survivingBooks [bEmma] none none = [bEmma] :=
  ⟨rfl, rfl⟩

/-- C1 amended: a lookup failure in the form of a non-success HTTP status is
absorbed — the book keeps its place in the output with correct title, isbn,
publication year and author, and its cover image is the empty string —
provided no surviving book's lookup raises; a raised transport error or a
malformed response body aborts the pipeline. -/
theorem lookup_status_failure_kept (client : String → LookupResult)
    (books : List Book) (sq sb : Option String)
    (H : ∀ b ∈ survivingBooks books sq sb, coverOk client b = true) :
    homePipeline client books sq sb
        = Except.ok ((survivingBooks books sq sb).map (mkBookInfo client))
    ∧ ∀ b ∈ survivingBooks books sq sb, ∀ st body,
        client b.isbn = LookupResult.resp st body → st ≠ 200 →
          (mkBookInfo client b).cover_image = PyVal.str ""
          ∧ (mkBookInfo client b).title = b.title
          ∧ (mkBookInfo client b).isbn = b.isbn
          ∧ (mkBookInfo client b).publication_year = b.publication_year
          ∧ (mkBookInfo client b).author_name = b.author := by
  refine ⟨buildBooksData_eq_ok client _ H, ?_⟩
  intro b hb st body hc hst
  refine ⟨?_, rfl, rfl, rfl, rfl⟩
  simp [mkBookInfo, fetchCover, hc, hst]

/-- C1 amended witness: a 404 client at a concrete book set. -/
theorem lookup_status_failure_kept_witness :
    homePipeline notFoundClient [bEmma] none none
      = Except.ok ((survivingBooks [bEmma] none none).map
          (mkBookInfo notFoundClient)) :=
  (lookup_status_failure_kept notFoundClient [bEmma] none none (by decide)).1

/-- C4 counterexample: `'.get('thumbnail', '')'` returns the stored value
when the key is present, even when that value is `None`; a matching record
whose `thumbnail` holds JSON `null` therefore yields `cover_image = None`,
not the empty string required by Scenario 4, so the field is not always a
string. -/
theorem null_thumbnail_gives_null_cover :
    homePipeline nullThumbClient [bEmma] none none
      = Except.ok [{ title := "Emma", isbn := "111", publication_year := 1815,
                     author_name := aAusten, cover_image := PyVal.none }]
      ∧ PyVal.none ≠ PyVal.str "" :=
  ⟨rfl, by decide⟩

/-- C4 amended: when no surviving book's lookup raises, exactly one
`cover_image` value is produced per surviving book; an absent `imageLinks`
or absent `thumbnail` key yields the empty string, but a present `thumbnail`
key yields its stored value unchanged — so a stored JSON `null` produces a
`None` cover image rather than the empty string. -/
theorem enrichment_total_when_no_raise (client : String → LookupResult)
    (books : List Book) (sq sb : Option String)
    (H : ∀ b ∈ survivingBooks books sq sb, coverOk client b = true) :
    homePipeline client books sq sb
        = Except.ok ((survivingBooks books sq sb).map (mkBookInfo client))
    ∧ ∀ isbn vi rest, client isbn
          = LookupResult.resp 200 (Body.parsed (some ({ volumeInfo := some vi } :: rest))) →
        ((∀ d v, vi.imageLinks = some d → d.thumbnail = some v →
            fetchCover client isbn = Except.ok v)
          ∧ (∀ d, vi.imageLinks = some d → d.thumbnail = Option.none →
            fetchCover client isbn = Except.ok (PyVal.str ""))
          ∧ (vi.imageLinks = Option.none →
            fetchCover client isbn = Except.ok (PyVal.str ""))) := by
  refine ⟨buildBooksData_eq_ok client _ H, ?_⟩
  intro isbn vi rest hc
  refine ⟨?_, ?_, ?_⟩
  · intro d v hd hv
    simp [fetchCover, hc, getCoverLink, hd, hv]
  · intro d hd ht
    simp [fetchCover, hc, getCoverLink, hd, ht]
  · intro hd
    simp [fetchCover, hc, getCoverLink, hd]

/-- C4 amended witness: a client answering with a thumbnail URL at a concrete
book set. -/
theorem enrichment_total_when_no_raise_witness :
    homePipeline urlClient [bDune] none none
      = Except.ok ((survivingBooks [bDune] none none).map (mkBookInfo urlClient)) :=
  (enrichment_total_when_no_raise urlClient [bDune] none none (by decide)).1

/-- C5 counterexample: a 200 response whose body fails to parse makes
`response.json()` raise, so the pipeline produces no output sequence at all,
although one book survives filter and sort. -/
theorem malformed_body_aborts_output :
    homePipeline malformedClient [bDune] none none = Except.error ()
      ∧ survivingBooks [bDune] none none = [bDune] :=
  ⟨rfl, rfl⟩

/-- C5 amended: whenever no surviving book's lookup raises, the pipeline
outputs exactly one view entry per surviving book, in the post-filter,
post-sort order, each carrying that book's title, isbn, publication year and
the author object itself. -/
theorem view_entries_shape (client : String → LookupResult)
    (books : List Book) (sq sb : Option String)
    (H : ∀ b ∈ survivingBooks books sq sb, coverOk client b = true) :
    ∃ es, homePipeline client books sq sb = Except.ok es
      ∧ es.length = (survivingBooks books sq sb).length
      ∧ es.map BookInfo.title = (survivingBooks books sq sb).map Book.title
      ∧ es.map BookInfo.isbn = (survivingBooks books sq sb).map Book.isbn
      ∧ es.map BookInfo.publication_year
          = (survivingBooks books sq sb).map Book.publication_year
      ∧ es.map BookInfo.author_name
          = (survivingBooks books sq sb).map Book.author := by
  refine ⟨_, buildBooksData_eq_ok client _ H, ?_, ?_, ?_, ?_, ?_⟩ <;>
    simp [List.map_map, Function.comp, mkBookInfo]

/-- C5 amended witness at a concrete book set. -/
theorem view_entries_shape_witness :
    ∃ es, homePipeline urlClient [bEmma] none none = Except.ok es
      ∧ es.length = (survivingBooks [bEmma] none none).length
      ∧ es.map BookInfo.title = (survivingBooks [bEmma] none none).map Book.title
      ∧ es.map BookInfo.isbn = (survivingBooks [bEmma] none none).map Book.isbn
      ∧ es.map BookInfo.publication_year
          = (survivingBooks [bEmma] none none).map Book.publication_year
      ∧ es.map BookInfo.author_name
          = (survivingBooks [bEmma] none none).map Book.author :=
  view_entries_shape urlClient [bEmma] none none (by decide)

/-- C7 counterexample: with the same single-book set and no search or sort,
one client lets the run emit the book while another (raising) client makes
the same run produce no output, so differing lookup responses can change
membership, contradicting the claim for arbitrary client behaviour. -/
theorem lookup_outcome_changes_membership :
    homePipeline urlClient [bDune] none none
        = Except.ok [{ title := "Dune", isbn := "222", publication_year := 1965,
                       author_name := aHerbert,
                       cover_image := PyVal.str "http://x/t.jpg" }]
      ∧ homePipeline exnClient [bDune] none none = Except.error () :=
  ⟨rfl, rfl⟩

/-- C7 amended: two completed runs of the pipeline over the same book set,
search string and sort directive — under arbitrarily different lookup
clients, as long as neither run raises — contain the same books in the same
order; the client influences only the `cover_image` field. -/
theorem enrichment_isolated_from_order (books : List Book)
    (sq sb : Option String) (c1 c2 : String → LookupResult)
    (es1 es2 : List BookInfo)
    (h1 : homePipeline c1 books sq sb = Except.ok es1)
    (h2 : homePipeline c2 books sq sb = Except.ok es2) :
    es1.map (fun e => (e.title, e.isbn, e.publication_year, e.author_name))
      = es2.map (fun e => (e.title, e.isbn, e.publication_year, e.author_name)) := by
  have e1 := buildBooksData_ok_elim c1 _ es1 h1
  have e2 := buildBooksData_ok_elim c2 _ es2 h2
  subst e1
  subst e2
  simp [List.map_map, Function.comp, mkBookInfo]

/-- C7 amended witness: two concrete completed runs with different clients. -/
theorem enrichment_isolated_from_order_witness :
    ([{ title := "Emma", isbn := "111", publication_year := 1815,
        author_name := aAusten,
        cover_image := PyVal.str "http://x/t.jpg" }] : List BookInfo).map
        (fun e => (e.title, e.isbn, e.publication_year, e.author_name))
      = ([{ title := "Emma", isbn := "111", publication_year := 1815,
            author_name := aAusten,
            cover_image := PyVal.str "" }] : List BookInfo).map
          (fun e => (e.title, e.isbn, e.publication_year, e.author_name)) :=
  enrichment_isolated_from_order [bEmma] none none urlClient notFoundClient
    _ _ rfl rfl

/-! ## Claim theorems: side effects and the delete route -/

/-- Replaying the enrichment loop's lookup calls never changes the store. -/
theorem applyEffects_lookupEffects (client : String → LookupResult)
    (l : List Book) (s : Store) :
    applyEffects s (lookupEffects client l) = s := by
  induction l generalizing s with
  | nil => rfl
  | cons b rest ih =>
    cases hfc : fetchCover client b.isbn with
    | ok v =>
      simp only [lookupEffects, hfc, applyEffects, List.foldl_cons]
      exact ih s
    | error e =>
      simp only [lookupEffects, hfc, applyEffects, List.foldl_cons, List.foldl_nil]
      rfl

/-- When no surviving book's lookup raises, the loop issues exactly one
lookup call per book, in order. -/
theorem lookupEffects_eq_map (client : String → LookupResult) (l : List Book)
    (H : ∀ b ∈ l, coverOk client b = true) :
    lookupEffects client l = l.map (fun b => Effect.lookup b.isbn) := by
  induction l with
  | nil => rfl
  | cons b rest ih =>
    have hb := H b (by simp)
    cases hfc : fetchCover client b.isbn with
    | error e => simp [coverOk, hfc] at hb
    | ok v =>
      simp only [lookupEffects, hfc, List.map]
      rw [ih (fun x hx => H x (by simp [hx]))]

/-- C8 amended: replaying every operation a `home` request performs leaves
the Record Store exactly as it was (the trace holds one read of the book
table and lookup calls only); and when no surviving book's lookup raises,
the request issues exactly one outbound lookup per surviving book, in order.
A raised lookup aborts the loop, so the books after it get no call. -/
theorem home_request_frame (client : String → LookupResult) (store : Store)
    (sq sb : Option String) :
    applyEffects store (homeEffects client store.books sq sb) = store
    ∧ ((∀ b ∈ survivingBooks store.books sq sb, coverOk client b = true) →
        homeEffects client store.books sq sb
          = Effect.queryAllBooks ::
              (survivingBooks store.books sq sb).map
                (fun b => Effect.lookup b.isbn)) := by
  constructor
  · simp only [homeEffects, applyEffects, List.foldl_cons]
    exact applyEffects_lookupEffects client _ store
  · intro H
    simp only [homeEffects]
    rw [lookupEffects_eq_map client _ H]

/-- C8 amended witness: the trace of a concrete completed request. -/
theorem home_request_frame_witness :
    homeEffects urlClient [bEmma] none none
      = Effect.queryAllBooks ::
          (survivingBooks [bEmma] none none).map (fun b => Effect.lookup b.isbn) :=
  (home_request_frame urlClient { books := [bEmma], authors := [aAusten] }
    none none).2 (by decide)

/-- C8 counterexample: with two surviving books and a client whose first
call raises, the request issues only one lookup, not one per surviving
book. -/
theorem lookup_calls_stop_at_exception :
    homeEffects exnClient [bEmma, bDune] none none
        = [Effect.queryAllBooks, Effect.lookup "111"]
      ∧ (survivingBooks [bEmma, bDune] none none).map
            (fun b => Effect.lookup b.isbn)
          = [Effect.lookup "111", Effect.lookup "222"] :=
  ⟨rfl, rfl⟩

/-- C9: when the requested book id exists, the delete route never runs its
POST branch — the route accepts only GET, so a POST is rejected with 405
before the view runs — hence no row is deleted, the store is unchanged, and
a request that reaches the view renders the confirmation template for the
found book. -/
theorem delete_route_get_only (store : Store) (book_id : Nat) (m : Method)
    (b : Book) (hb : store.books.find? (fun x => x.id = book_id) = some b) :
    (delete_book_route store book_id m).1 = store
    ∧ (m ≠ Method.POST →
        (delete_book_route store book_id m).2
          = Except.ok (DeleteResponse.render "delete_book.html" b))
    ∧ (m = Method.POST →
        (delete_book_route store book_id m).2
          = Except.ok DeleteResponse.methodNotAllowed) := by
  refine ⟨?_, ?_, ?_⟩
  · by_cases hm : m = Method.POST
    · simp [delete_book_route, hm]
    · simp [delete_book_route, hm, delete_book_view, hb]
  · intro hm
    simp [delete_book_route, hm, delete_book_view, hb]
  · intro hm
    simp [delete_book_route, hm]

/-- C9 witness: a GET for an existing book at a concrete store. -/
theorem delete_route_get_only_witness :
    (delete_book_route { books := [bEmma], authors := [aAusten] } 1
        Method.GET).2
      = Except.ok (DeleteResponse.render "delete_book.html" bEmma) :=
  (delete_route_get_only { books := [bEmma], authors := [aAusten] } 1
    Method.GET bEmma (by decide)).2.1 (by decide)

/-- C10: when the requested book id does not exist, the not-found branch
calls `redirect` with the unsupported `message` keyword argument, which
raises `TypeError`; so a request that reaches the view produces no redirect
response but an unhandled error, and the store is unchanged in every case. -/
theorem delete_route_missing_book_raises (store : Store) (book_id : Nat)
    (m : Method)
    (hb : store.books.find? (fun x => x.id = book_id) = Option.none) :
    (delete_book_route store book_id m).1 = store
    ∧ (m ≠ Method.POST →
        (delete_book_route store book_id m).2 = Except.error ()) := by
  constructor
  · by_cases hm : m = Method.POST
    · simp [delete_book_route, hm]
    · simp [delete_book_route, hm, delete_book_view, hb, flaskRedirect]
  · intro hm
    simp [delete_book_route, hm, delete_book_view, hb, flaskRedirect]

/-- C10 witness: a GET for a missing book id at a concrete store. -/
theorem delete_route_missing_book_raises_witness :
    (delete_book_route { books := [bDune], authors := [] } 1 Method.GET).2
      = Except.error () :=
  (delete_route_missing_book_raises { books := [bDune], authors := [] } 1
    Method.GET (by decide)).2 (by decide)
